import Mathlib

/-!
Shallow embedding of the upload and progress-tracking logic of the
AI-Resume-Analyzer frontend:

  - src/frontend/src/components/ResumeAnalyzer.tsx
    (startAnalysis, handleFileChange, the progress interval updater,
    the submit button guard, the fetch continuation)
  - src/frontend/src/components/ui/file-upload.tsx
    (onDrop rejection handling, removeFile, formatFileSize)

Machine numbers are modelled as Nat.  The pseudo-random draw of each
progress tick is an explicit parameter r standing for
Math.floor(Math.random() * 10), hence 0 <= r <= 9.  The interval and
timeout side effects are modelled as explicit state fields: timerActive
tracks whether the progress interval is running, pendingLoadingClearMs
tracks the setTimeout scheduled on success, and requestsIssued counts
the fetch calls issued so far.
-/

/-- Analysis object inside the backend payload
(ResumeAnalyzer.tsx lines 31 to 37). -/
structure AnalysisObject where
  strengths : List String
  improvements : List String
  matching_qualifications : String
  missing_requirements : String
  final_assessment : String
deriving DecidableEq

/-- Result payload of the analysis endpoint (ResumeAnalyzer.tsx lines 39
to 45).  The parsed field is an unconstrained JSON value in the source
and is modelled as a String carrying its serialized form. -/
structure AnalysisResult where
  parsed : String
  analysis : AnalysisObject
  score : Nat
  suggestions : String
  roadmap : String
deriving DecidableEq

/-- React state of the ResumeAnalyzer component together with the
explicit resources it owns (ResumeAnalyzer.tsx lines 64 to 73):
file, isAnalyzing, isLoading, progress and analysisResult are the
useState hooks; timerActive models the interval held in intervalRef;
requestsIssued counts issued fetch calls; pendingLoadingClearMs models
the scheduled setTimeout delay; alertMsg records the last alert text. -/
structure State where
  file : Option String
  isAnalyzing : Bool
  isLoading : Bool
  progress : Nat
  analysisResult : Option AnalysisResult
  timerActive : Bool
  requestsIssued : Nat
  pendingLoadingClearMs : Option Nat
  alertMsg : Option String
deriving DecidableEq

/-- The initial component state: no file, nothing running. -/
def initialState : State :=
  { file := none, isAnalyzing := false, isLoading := false, progress := 0,
    analysisResult := none, timerActive := false, requestsIssued := 0,
    pendingLoadingClearMs := none, alertMsg := none }

/-- One firing of the progress interval, the functional updater passed to
setProgress (ResumeAnalyzer.tsx lines 97 to 107).  prev is the current
progress value, r the value of Math.floor(Math.random() * 10).
When prev is at least 95 the interval is cleared and 95 returned;
otherwise the draw is added to prev with no clamping of the sum (the
alternative literal 1 in the source conditional is unreachable, since
the branch is only taken when prev < 95 already holds). -/
def analyzerTick (prev r : Nat) : Nat :=
  if prev ≥ 95 then 95
  else prev + (if prev < 95 then r else 1)

/-- Progress value after a sequence of interval firings with the given
random draws, starting from the 0 set by startAnalysis. -/
def progressRun (draws : List Nat) : Nat :=
  draws.foldl analyzerTick 0

/-- Alert text used when submitting without a file
(ResumeAnalyzer.tsx line 82). -/
def noFileAlert : String := "Please upload a resume first."

/-- Fallback message thrown when the error body has no usable error
field (ResumeAnalyzer.tsx line 117). -/
def fallbackError : String := "Failed to analyze resume"

/-- handleFileChange (ResumeAnalyzer.tsx lines 75 to 79): a newly picked
file replaces the current one; nothing else is touched. -/
def handleFileChange (s : State) (f : String) : State :=
  { s with file := some f }

/-- The synchronous part of startAnalysis up to its suspension at the
fetch (ResumeAnalyzer.tsx lines 81 to 113).  Without a file it only
raises the alert; otherwise it sets isAnalyzing, clears the previous
result, sets isLoading, resets progress to 0, starts the progress
interval and issues one network request. -/
def startAnalysis (s : State) : State :=
  match s.file with
  | none => { s with alertMsg := some noFileAlert }
  | some _ =>
    { s with isAnalyzing := true, analysisResult := none, isLoading := true,
             progress := 0, timerActive := true,
             requestsIssued := s.requestsIssued + 1 }

/-- Outcome of the awaited fetch.  httpError carries the error field of
the JSON body of a non-2xx response: none when the field is absent,
some e when it is the string e (the source expression
errorData.error || fallback treats the empty string like an absent
field).  transportError carries the message of the error the rejected
fetch was thrown with: the transport has no response at all, and the
message text is produced by the host environment, not by this code. -/
inductive FetchOutcome where
  | success (data : AnalysisResult)
  | httpError (errField : Option String)
  | transportError (msg : String)

/-- The message of the Error thrown on a non-2xx response
(ResumeAnalyzer.tsx line 117): the error field of the body when it is a
non-empty string, else the generic fallback. -/
def thrownMessage : Option String → String
  | some e => if e = "" then fallbackError else e
  | none => fallbackError

/-- Resumption of startAnalysis after the fetch settles
(ResumeAnalyzer.tsx lines 115 to 136).  On success the payload is
stored as is, the interval cleared, progress forced to 100, and a
500 ms timeout is scheduled to clear isLoading; the finally block
clears isAnalyzing.  On a thrown error, whether from a non-2xx
response or from the transport, the catch block alerts the message,
clears the interval, clears isLoading and resets progress to 0.
No attempt identity is checked anywhere: the continuation applies to
whatever the component state is at arrival time. -/
def settle (s : State) (o : FetchOutcome) : State :=
  match o with
  | .success d =>
    { s with analysisResult := some d, timerActive := false, progress := 100,
             pendingLoadingClearMs := some 500, isAnalyzing := false }
  | .httpError e =>
    { s with alertMsg := some ("Error: " ++ thrownMessage e), timerActive := false,
             isLoading := false, progress := 0, isAnalyzing := false }
  | .transportError m =>
    { s with alertMsg := some ("Error: " ++ m), timerActive := false,
             isLoading := false, progress := 0, isAnalyzing := false }

/-- Firing of the timeout scheduled on success
(ResumeAnalyzer.tsx lines 126 to 128): clears isLoading. -/
def fireLoadingTimeout (s : State) : State :=
  match s.pendingLoadingClearMs with
  | some _ => { s with isLoading := false, pendingLoadingClearMs := none }
  | none => s

/-- Guard of the submit button (ResumeAnalyzer.tsx line 240):
disabled while analyzing or without a file. -/
def buttonDisabled (s : State) : Bool :=
  s.isAnalyzing || s.file.isNone

/-- A click on the submit button: a no-op while the button is disabled,
otherwise it runs startAnalysis (ResumeAnalyzer.tsx lines 238 to 244). -/
def clickSubmit (s : State) : State :=
  if buttonDisabled s then s else startAnalysis s

/-- Rejection reasons of the dropzone intake check, the closed
enumeration behind the three message branches of onDrop
(file-upload.tsx lines 30 to 38). -/
inductive RejectReason where
  | tooLarge
  | invalidType
  | other
deriving DecidableEq

/-- Classification of a rejected drop (file-upload.tsx lines 32 to 38):
the rejection error codes are tested for the size code first, then the
type code, else the generic branch is taken. -/
def classifyRejection (errorCodes : List String) : RejectReason :=
  if errorCodes.contains "file-too-large" then .tooLarge
  else if errorCodes.contains "file-invalid-type" then .invalidType
  else .other

/-- The user-facing message for each rejection reason under a configured
maxSize in bytes (file-upload.tsx lines 33 to 37).  The source
interpolates maxSize / 1024 / 1024; Nat division matches the JS value
whenever maxSize is a multiple of 2 ^ 20, as the 10 MB default is. -/
def rejectionMessage (maxSize : Nat) : RejectReason → String
  | .tooLarge =>
      "File is too large. Maximum size is " ++ toString (maxSize / 1024 / 1024) ++ "MB"
  | .invalidType => "Invalid file type. Please upload a PDF file."
  | .other => "File upload failed. Please try again."

/-- Status values of the dropzone widget (file-upload.tsx line 26). -/
inductive UploadStatus where
  | idle
  | uploading
  | success
  | error
deriving DecidableEq

/-- React state of the dropzone widget (file-upload.tsx lines 24 to 27).
The simulated-progress interval started in onDrop lives in a local
variable of that callback and is not part of the component state, so
removeFile has no way to clear it. -/
structure UploadState where
  selectedFile : Option String
  uploadProgress : Nat
  uploadStatus : UploadStatus
  errorMessage : String
deriving DecidableEq

/-- removeFile (file-upload.tsx lines 74 to 80): resets the selection,
the progress value, the status and the error text. -/
def removeFile (u : UploadState) : UploadState :=
  { u with selectedFile := none, uploadProgress := 0,
           uploadStatus := .idle, errorMessage := "" }

/-- The remove button of the dropzone is disabled while uploading
(file-upload.tsx line 163). -/
def removeDisabled (u : UploadState) : Bool :=
  u.uploadStatus == .uploading

/-- Unit names array of formatFileSize (file-upload.tsx line 85). -/
def sizes : List String := ["Bytes", "KB", "MB", "GB"]

/-- Unit index of formatFileSize (file-upload.tsx line 86):
Math.floor(Math.log bytes / Math.log 1024), the floor logarithm base
1024, modelled with exact real arithmetic as Nat.log. -/
def fileSizeIndex (bytes : Nat) : Nat := Nat.log 1024 bytes

/-- The value of num / den in hundredths rounded to the nearest integer,
modelling toFixed(2) applied to the quotient. -/
def roundHundredths (num den : Nat) : Nat :=
  (num * 200 + den) / (den * 2)

/-- Decimal rendering of a number of hundredths with trailing zeros
stripped, modelling parseFloat applied to the toFixed(2) string followed
by the number-to-string coercion of the final concatenation. -/
def twoDecimalString (h : Nat) : String :=
  if h % 100 = 0 then toString (h / 100)
  else if h % 10 = 0 then toString (h / 100) ++ "." ++ toString (h / 10 % 10)
  else toString (h / 100) ++ "." ++
    (if h % 100 < 10 then "0" else "") ++ toString (h % 100)

/-- formatFileSize (file-upload.tsx lines 82 to 88), with the IEEE
double arithmetic of the source modelled by exact rational arithmetic;
the source indexes sizes[i], rendered here as sizes.getD i. -/
def formatFileSize (bytes : Nat) : String :=
  if bytes = 0 then "0 Bytes"
  else
    twoDecimalString (roundHundredths bytes (1024 ^ fileSizeIndex bytes))
      ++ " " ++ sizes.getD (fileSizeIndex bytes) ""

/-- A state in which one submission is outstanding: a file selected,
analyzing, timer running, one request issued, progress at 57. -/
def busyState : State :=
  { file := some "resume.pdf", isAnalyzing := true, isLoading := true,
    progress := 57, analysisResult := none, timerActive := true,
    requestsIssued := 1, pendingLoadingClearMs := none, alertMsg := none }

/-- A concrete payload of the shape returned by the backend. -/
def sampleResult : AnalysisResult :=
  { parsed := "parsed resume text",
    analysis :=
      { strengths := ["clear layout"], improvements := ["add metrics"],
        matching_qualifications := "react experience",
        missing_requirements := "sql experience",
        final_assessment := "good fit" },
    score := 87, suggestions := "tighten the summary", roadmap := "learn sql" }

/-- Two strings with different character lists differ. -/
theorem ne_of_data_ne {s t : String} (h : s.data ≠ t.data) : s ≠ t :=
  fun he => h (congrArg String.data he)

/-- A list beginning with a differs from r when the two disagree at an
index below the length of a. -/
theorem append_ne_of_getElem_ne {α : Type} (a x r : List α) (i : Nat)
    (hi : i < a.length) (hne : a[i]? ≠ r[i]?) : a ++ x ≠ r :=
  fun h =>
    hne ((@List.getElem?_append_left α a x i hi).symm.trans
      (congrArg (fun l => l[i]?) h))

/-- The size message differs from the type message at its first
character, whatever the interpolated limit text is. -/
theorem tooLargeMsg_ne_invalid (q : String) :
    "File is too large. Maximum size is " ++ q ++ "MB"
      ≠ "Invalid file type. Please upload a PDF file." := by
  apply ne_of_data_ne
  rw [String.data_append, String.data_append, List.append_assoc]
  exact append_ne_of_getElem_ne _ _ _ 0 (by decide) (by decide)

/-- The size message differs from the generic message at character
index 5, whatever the interpolated limit text is. -/
theorem tooLargeMsg_ne_other (q : String) :
    "File is too large. Maximum size is " ++ q ++ "MB"
      ≠ "File upload failed. Please try again." := by
  apply ne_of_data_ne
  rw [String.data_append, String.data_append, List.append_assoc]
  exact append_ne_of_getElem_ne _ _ _ 5 (by decide) (by decide)

/-- The unit index of one mebibyte is 2, pointing at MB. -/
theorem fileSizeIndex_mb : fileSizeIndex 1048576 = 2 :=
  Nat.log_eq_of_pow_le_of_lt_pow (by norm_num) (by norm_num)

/-- Claim C1: the claim says each autonomous tick is clamped at 95 and
that 100 is reached only through the success path.  In the code the
draw is added before any comparison with the cap: at progress 94 a draw
of 9 yields 103, past both 95 and 100, and a draw of 6 yields exactly
100 while the request is still outstanding.  Both situations are
reachable from the initial progress 0 using only legal draws below 10,
as the progressRun conjuncts show. -/
theorem analyzerTick_overshoots_cap :
    analyzerTick 94 9 = 103 ∧ analyzerTick 94 6 = 100 ∧
    ¬ analyzerTick 94 9 ≤ 95 ∧
    progressRun [9, 9, 9, 9, 9, 9, 9, 9, 9, 9, 4, 9] = 103 ∧
    progressRun [9, 9, 9, 9, 9, 9, 9, 9, 9, 9, 4, 6] = 100 := by
  decide

/-- Claim C2: the claim says no tick ever lowers the displayed
percentage.  After the reachable draw sequence of eleven nines the
displayed progress is 99; the next tick takes the branch for values of
at least 95 and sets the progress to 95, lowering the displayed
percentage by 4. -/
theorem progressRun_decreasing_step :
    progressRun [9, 9, 9, 9, 9, 9, 9, 9, 9, 9, 9] = 99 ∧
    progressRun [9, 9, 9, 9, 9, 9, 9, 9, 9, 9, 9, 0] = 95 ∧
    95 < 99 := by
  decide

/-- Claim C3 counterexample: invoking startAnalysis itself while a
submission is outstanding is not rejected with any error value: it
resets the progress of the existing attempt and issues a second network
request, so the claim that a second call leaves the attempt untouched
and issues no request fails at this input; no ConcurrentSubmission
error exists anywhere in the component. -/
theorem startAnalysis_double_submit :
    (startAnalysis busyState).requestsIssued = 2 ∧
    (startAnalysis busyState).progress = 0 ∧
    busyState.progress = 57 ∧
    (startAnalysis busyState).progress ≠ busyState.progress := by
  decide

/-- Claim C3 amended: while a submission is outstanding isAnalyzing is
true, so the submit button is disabled and a click is a silent no-op
that leaves the whole state unchanged and issues no request; this
disabled control, not a ConcurrentSubmission error, is the only guard
against concurrent submissions. -/
theorem clickSubmit_inflight_noop (s : State) (h : s.isAnalyzing = true) :
    clickSubmit s = s := by
  simp [clickSubmit, buttonDisabled, h]

theorem clickSubmit_inflight_noop_witness :
    busyState.isAnalyzing = true ∧ clickSubmit busyState = busyState :=
  ⟨rfl, clickSubmit_inflight_noop busyState rfl⟩

/-- Claim C4 counterexample: a transport failure surfaces the message
carried by the thrown error, here the host-produced text Failed to
fetch, which differs from the generic fallback the claim requires; and
a structured error field that is present but empty is replaced by the
fallback rather than surfaced verbatim. -/
theorem settle_transport_message :
    (settle busyState (.transportError "Failed to fetch")).alertMsg
      = some "Error: Failed to fetch" ∧
    "Error: Failed to fetch" ≠ "Error: " ++ fallbackError ∧
    thrownMessage (some "") = fallbackError ∧
    ("" : String) ≠ fallbackError := by
  decide

/-- Claim C4 amended: on a non-2xx response the structured error string
is surfaced verbatim when present and non-empty, else the generic
fallback is used; the timer is stopped, the busy flag cleared, the
progress reset to 0 and the attempt ends failed with the alerted
message while isAnalyzing is cleared.  A transport failure runs the
same path but surfaces the message of the thrown error itself instead
of the generic fallback. -/
theorem settle_error_paths (s : State) (e m : String) :
    (settle s (.httpError (some e))).alertMsg
        = some ("Error: " ++ (if e = "" then fallbackError else e)) ∧
    (settle s (.httpError none)).alertMsg
        = some ("Error: " ++ fallbackError) ∧
    (settle s (.httpError (some e))).timerActive = false ∧
    (settle s (.httpError (some e))).progress = 0 ∧
    (settle s (.httpError (some e))).isLoading = false ∧
    (settle s (.httpError (some e))).isAnalyzing = false ∧
    (settle s (.transportError m)).alertMsg = some ("Error: " ++ m) ∧
    (settle s (.transportError m)).timerActive = false ∧
    (settle s (.transportError m)).progress = 0 ∧
    (settle s (.transportError m)).isLoading = false := by
  simp [settle, thrownMessage]

/-- Claim C5: on a 2xx response the parsed payload is stored unmodified,
the progress interval is stopped, progress is set to exactly 100, and
the busy flag isLoading is untouched at settle time: it is cleared only
by the 500 ms timeout scheduled at success, as the last two conjuncts
show. -/
theorem settle_success_spec (s : State) (d : AnalysisResult) :
    (settle s (.success d)).analysisResult = some d ∧
    (settle s (.success d)).timerActive = false ∧
    (settle s (.success d)).progress = 100 ∧
    (settle s (.success d)).isLoading = s.isLoading ∧
    (settle s (.success d)).pendingLoadingClearMs = some 500 ∧
    (fireLoadingTimeout (settle s (.success d))).isLoading = false ∧
    (fireLoadingTimeout (settle s (.success d))).pendingLoadingClearMs
      = none := by
  simp [settle, fireLoadingTimeout]

/-- Claim C6: a rejected drop is classified by exactly one reason of the
closed enumeration, testing the size code first, then the type code,
else the generic reason; the three user-facing messages are pairwise
distinct for every configured limit, and the size message carries the
configured limit interpolated in megabytes. -/
theorem rejection_classification_spec (codes : List String) (maxSize : Nat) :
    (codes.contains "file-too-large" = true →
        classifyRejection codes = .tooLarge) ∧
    (codes.contains "file-too-large" = false →
        codes.contains "file-invalid-type" = true →
        classifyRejection codes = .invalidType) ∧
    (codes.contains "file-too-large" = false →
        codes.contains "file-invalid-type" = false →
        classifyRejection codes = .other) ∧
    rejectionMessage maxSize .tooLarge
      = "File is too large. Maximum size is "
          ++ toString (maxSize / 1024 / 1024) ++ "MB" ∧
    rejectionMessage maxSize .tooLarge
      ≠ rejectionMessage maxSize .invalidType ∧
    rejectionMessage maxSize .tooLarge ≠ rejectionMessage maxSize .other ∧
    rejectionMessage maxSize .invalidType
      ≠ rejectionMessage maxSize .other := by
  refine ⟨fun h1 => ?_, fun h1 h2 => ?_, fun h1 h2 => ?_, rfl,
    tooLargeMsg_ne_invalid _, tooLargeMsg_ne_other _, ?_⟩
  · unfold classifyRejection; rw [h1]; rfl
  · unfold classifyRejection; rw [h1, h2]; rfl
  · unfold classifyRejection; rw [h1, h2]; rfl
  · simp only [rejectionMessage]
    decide

theorem rejection_classification_spec_witness :
    classifyRejection ["file-too-large", "file-invalid-type"]
      = .tooLarge ∧
    rejectionMessage (10 * 1024 * 1024) .tooLarge
      = "File is too large. Maximum size is 10MB" ∧
    rejectionMessage (10 * 1024 * 1024) .invalidType
      ≠ rejectionMessage (10 * 1024 * 1024) .other := by
  obtain ⟨h1, _, _, h4, _, _, h7⟩ :=
    rejection_classification_spec ["file-too-large", "file-invalid-type"]
      (10 * 1024 * 1024)
  exact ⟨h1 (by decide), by rw [h4]; decide, h7⟩

/-- Claim C7 counterexample: replacing the selected file while a request
is in flight cancels nothing.  Starting from a state with the old file
selected, startAnalysis starts the attempt, handleFileChange replaces
the selection while the timer is still active, and the late response of
the old attempt is then applied in full: the result is stored and the
progress forced to 100 even though the attempt identity changed. -/
theorem late_response_applied :
    (handleFileChange
        (startAnalysis { initialState with file := some "old.pdf" })
        "new.pdf").timerActive = true ∧
    (settle
        (handleFileChange
          (startAnalysis { initialState with file := some "old.pdf" })
          "new.pdf")
        (.success sampleResult)).analysisResult = some sampleResult ∧
    (settle
        (handleFileChange
          (startAnalysis { initialState with file := some "old.pdf" })
          "new.pdf")
        (.success sampleResult)).progress = 100 ∧
    (settle
        (handleFileChange
          (startAnalysis { initialState with file := some "old.pdf" })
          "new.pdf")
        (.success sampleResult)).file = some "new.pdf" := by
  decide

/-- Claim C7 amended: in the dropzone widget removeFile does reset the
status to Idle, and its remove control is disabled while uploading; but
neither removal nor replacement cancels anything tied to the previous
attempt: in the analyzer a file change touches neither the running
timer nor the issued request, and a response arriving after the change
is applied as usual, storing the result and forcing progress to 100
rather than being discarded. -/
theorem replace_during_flight_spec (u : UploadState) (s : State)
    (f : String) (d : AnalysisResult) :
    (removeFile u).uploadStatus = .idle ∧
    removeDisabled { u with uploadStatus := .uploading } = true ∧
    (handleFileChange s f).timerActive = s.timerActive ∧
    (handleFileChange s f).requestsIssued = s.requestsIssued ∧
    (settle (handleFileChange s f) (.success d)).analysisResult = some d ∧
    (settle (handleFileChange s f) (.success d)).progress = 100 := by
  simp [removeFile, removeDisabled, handleFileChange, settle]

/-- Claim C8 counterexample: one mebibyte is not rendered as 1.00 MB;
the toFixed(2) text 1.00 is passed through parseFloat, which drops the
trailing zeros before display. -/
theorem formatFileSize_mb_not_padded :
    formatFileSize 1048576 ≠ "1.00 MB" := by
  simp only [formatFileSize, fileSizeIndex_mb]
  decide

/-- Claim C8 amended: a file of exactly 1048576 bytes is displayed as
1 MB: unit selection is binary with base 1024 and the numeric part is
rounded to two decimals, after which parseFloat strips the trailing
zeros, leaving the bare 1. -/
theorem formatFileSize_mb :
    formatFileSize 1048576 = "1 MB" := by
  simp only [formatFileSize, fileSizeIndex_mb]
  decide

/-- Claim C9: submitting without a selected file only raises the alert:
no request is issued, no timer started, and none of isAnalyzing,
isLoading, progress or analysisResult changes, as the record update
equality states. -/
theorem startAnalysis_no_file_noop (s : State) (h : s.file = none) :
    startAnalysis s = { s with alertMsg := some noFileAlert } := by
  simp [startAnalysis, h]

theorem startAnalysis_no_file_noop_witness :
    initialState.file = none ∧
    startAnalysis initialState
      = { initialState with alertMsg := some noFileAlert } :=
  ⟨rfl, startAnalysis_no_file_noop initialState rfl⟩

/-- Claim C10: formatFileSize is total on the reachable inputs: 0 bytes
is rendered as 0 Bytes without taking any logarithm, and every size
accepted under a configured limit of at most 10 GB has unit index at
most 3, inside the bounds of the four-element unit array. -/
theorem formatFileSize_total_in_bounds (bytes maxSize : Nat)
    (hle : bytes ≤ maxSize)
    (hmax : maxSize ≤ 10 * 1024 * 1024 * 1024) :
    formatFileSize 0 = "0 Bytes" ∧ fileSizeIndex bytes ≤ 3 ∧
    fileSizeIndex bytes < sizes.length := by
  have hidx : fileSizeIndex bytes ≤ 3 := by
    rcases Nat.eq_zero_or_pos bytes with h0 | hpos
    · simp [fileSizeIndex, h0, Nat.log_zero_right]
    · have hlt : bytes < 1024 ^ 4 := by
        calc bytes ≤ 10 * 1024 * 1024 * 1024 := le_trans hle hmax
          _ < 1024 ^ 4 := by norm_num
      have h4 := Nat.log_lt_of_lt_pow (Nat.pos_iff_ne_zero.mp hpos) hlt
      exact Nat.lt_succ_iff.mp h4
  have hlen : sizes.length = 4 := rfl
  exact ⟨rfl, hidx, by omega⟩

theorem formatFileSize_total_in_bounds_witness :
    1048576 ≤ 10485760 ∧ 10485760 ≤ 10 * 1024 * 1024 * 1024 ∧
    (formatFileSize 0 = "0 Bytes" ∧ fileSizeIndex 1048576 ≤ 3 ∧
      fileSizeIndex 1048576 < sizes.length) :=
  ⟨by norm_num, by norm_num,
    formatFileSize_total_in_bounds 1048576 10485760 (by norm_num)
      (by norm_num)⟩
